import Mathlib

/-!
Shallow embedding of the incremental synchronization engine of the
indian-stock-ai-chatbot repository, from
`scripts/daily_ohlcv_syncer.py` and `scripts/smart_yahoo_syncer.py`.

Conventions of the embedding:
* Python floats are modelled as rationals (`ℚ`), database integers as `ℤ`/`ℕ`.
* `datetime` values are integers: the daily syncer works at day granularity
  (`StockSync.Daily`), the smart syncer at second granularity
  (`StockSync.Smart`); `daysOf` models `timedelta.days`.
* Nullable values are `Option`; a caught Python exception is modelled with
  `Except Unit` (or an explicit early return) exactly where the source has a
  `try/except`.
* SQLAlchemy tables are lists of rows inside one `DB` record; `session.query`
  filters become list filters, `.first()` becomes `List.find?`, and a commit
  is the identity (state is threaded explicitly).
-/

namespace StockSync

/-- `charPrefix sub s`: `sub` is a prefix of the character list `s`. -/
def charPrefix : List Char → List Char → Bool
  | [], _ => true
  | _ :: _, [] => false
  | a :: as, b :: bs => a == b && charPrefix as bs

/-- Substring containment on character lists. -/
def charContains (sub : List Char) : List Char → Bool
  | [] => sub.isEmpty
  | s :: rest => charPrefix sub (s :: rest) || charContains sub rest

/-- Python's `sub in s` substring test. -/
def pyIn (sub s : String) : Bool := charContains sub.data s.data

/-- Python's `str.lower()` (ASCII case folding, as in the metric labels). -/
def pyLower (s : String) : String := String.mk (s.data.map Char.toLower)

/-- Python's `int(x)` on a float: truncation toward zero. -/
def pyInt (q : ℚ) : ℤ := if 0 ≤ q then ⌊q⌋ else ⌈q⌉

/-- `timedelta(seconds := s).days`: floor division by 86400. -/
def daysOf (seconds : ℤ) : ℤ := Int.fdiv seconds 86400

/-- Mutate the first list element satisfying `p` (SQLAlchemy `.first()`
followed by attribute assignment); no-op when no row matches. -/
def updateFirst (p : α → Bool) (f : α → α) : List α → List α
  | [] => []
  | x :: xs => if p x then f x :: xs else x :: updateFirst p f xs

/-- Python truthiness of a nullable float: `None` and `0.0` are falsy.  A
rational is zero iff its (reduced) numerator is zero. -/
def truthy (o : Option ℚ) : Bool := (o.getD 0).num ≠ 0

/-- Python truthiness of a nullable string: `None` and `""` are falsy. -/
def strTruthy (o : Option String) : Bool := o.getD "" ≠ ""

/-- `a or b or dflt` over nullable strings. -/
def pyOr2 (a b : Option String) (dflt : String) : String :=
  if strTruthy a then a.getD ""
  else if strTruthy b then b.getD "" else dflt

/-! ## Data model (`app/models/stock.py`) -/

/-- A `daily_prices` row.  The always-`None` columns written by the daily
syncer (`vwap`, `delivery_quantity`, `delivery_percentage`) are omitted. -/
structure PriceRow where
  stock_id : ℕ
  date : ℤ
  open_price : ℚ
  high_price : ℚ
  low_price : ℚ
  close_price : ℚ
  volume : Option ℤ
  turnover : Option ℚ
deriving DecidableEq, Repr

/-- A `sync_tracker` row (column defaults: `records_count = 0`,
`sync_status = 'success'`). -/
structure Tracker where
  stock_id : ℕ
  data_type : String
  last_sync_time : Option ℤ
  last_data_date : Option ℤ
  records_count : ℤ
  sync_status : String
  error_message : Option String
deriving DecidableEq, Repr

/-- A `news` row (fields touched by the smart syncer). -/
structure NewsRow where
  stock_id : ℕ
  title : String
  content : String
  source : String
  url : String
  published_date : ℤ
deriving DecidableEq, Repr

/-- A calendar timestamp where the source inspects `.year` / `.month`
components (pandas `Timestamp`). -/
structure QDate where
  year : ℤ
  month : ℕ
  day : ℕ
deriving DecidableEq, Repr

/-- Injective chronological encoding of a valid calendar date, used where the
source stores a timestamp into an integer-time column. -/
def QDate.code (d : QDate) : ℤ := d.year * 10000 + d.month * 100 + d.day

/-- `quarter_date > latest_date` on timestamps. -/
def QDate.ltb (a b : QDate) : Bool := a.code < b.code

/-- A `financial_statements` row (the JSON `data` payload is opaque to the
sync logic and omitted). -/
structure FinStmt where
  stock_id : ℕ
  statement_type : String
  period : String
  year : ℤ
  quarter : Option ℕ
  is_consolidated : Bool
  filing_date : QDate
deriving DecidableEq, Repr

/-- An `announcements` row (fields touched by the earnings sync). -/
structure Announcement where
  stock_id : ℕ
  title : String
  announcement_date : QDate
deriving DecidableEq, Repr

/-- A `quarterly_results` row (metrics touched by the smart syncer). -/
structure QResult where
  stock_id : ℕ
  quarter : String
  year : ℤ
  quarter_number : ℕ
  revenue : Option ℚ
  net_profit : Option ℚ
  ebitda : Option ℚ
  operating_profit : Option ℚ
  operating_margin : Option ℚ
  net_margin : Option ℚ
  eps : Option ℚ
  is_consolidated : Bool
  announcement_date : QDate
deriving DecidableEq, Repr

/-- The persistent store: one list per table. -/
structure DB where
  prices : List PriceRow
  trackers : List Tracker
  news : List NewsRow
  financial_statements : List FinStmt
  announcements : List Announcement
  quarterly_results : List QResult
deriving DecidableEq, Repr

/-- The empty store. -/
def DB.empty : DB := ⟨[], [], [], [], [], []⟩

/-- One row of a fetched Yahoo Finance OHLCV DataFrame; a `none` field models
a missing/NaN value whose `float()`/`int()` conversion would raise. -/
structure YRow where
  date : ℤ
  Open : Option ℚ
  High : Option ℚ
  Low : Option ℚ
  Close : Option ℚ
  Volume : Option ℚ
deriving DecidableEq, Repr

/-- The dictionary returned by `get_latest_ohlcv_data`. -/
structure DbOHLCV where
  date : ℤ
  open_price : Option ℚ
  high : Option ℚ
  low : Option ℚ
  close : Option ℚ
  volume : Option ℤ
deriving DecidableEq, Repr

namespace Daily

/-! ## `scripts/daily_ohlcv_syncer.py` (`DailyOHLCVSyncer`); times are days. -/

/-- One price-field comparison of `validate_ohlcv_data`: `float()` of a
missing remote value raises (`.error`), a `None` local value is skipped
(`.ok true`), a zero local value makes `abs(db - yahoo) / db` raise
ZeroDivisionError (`.error`), and a relative delta above the tolerance
returns FAIL (`.ok false`). -/
def checkPriceField (tolerance : ℚ) (db_value yahoo_raw : Option ℚ) :
    Except Unit Bool :=
  match yahoo_raw with
  | none => .error ()
  | some yahoo_value =>
    match db_value with
    | none => .ok true
    | some dv =>
      if dv = 0 then .error ()
      else if |dv - yahoo_value| / dv > tolerance then .ok false
      else .ok true

/-- The `for field in fields` loop of `validate_ohlcv_data`: stops at the
first failing field, propagates exceptions. -/
def checkPriceFields (tolerance : ℚ) :
    List (Option ℚ × Option ℚ) → Except Unit Bool
  | [] => .ok true
  | (dv, yv) :: rest =>
    match checkPriceField tolerance dv yv with
    | .error e => .error e
    | .ok false => .ok false
    | .ok true => checkPriceFields tolerance rest

/-- The volume comparison of `validate_ohlcv_data`: guarded by Python
truthiness of both sides (`None`/`0` skip), fixed `0.1` tolerance. -/
def checkVolume (db_volume : Option ℤ) (yahoo_volume : Option ℚ) : Bool :=
  match db_volume, yahoo_volume with
  | some dv, some yv =>
    if dv = 0 ∨ yv = 0 then true
    else if |(dv : ℚ) - (pyInt yv : ℚ)| / (dv : ℚ) > 1 / 10 then false
    else true
  | _, _ => true

/-- `DailyOHLCVSyncer.validate_ohlcv_data`: compares the latest stored row
against the freshly fetched row; any exception inside the body is caught and
turned into `False`. -/
def validate_ohlcv_data (tolerance : ℚ) (db_data : Option DbOHLCV)
    (yahoo_data : YRow) : Bool :=
  match db_data with
  | none => false
  | some db =>
    match checkPriceFields tolerance
        [(db.open_price, yahoo_data.Open), (db.high, yahoo_data.High),
         (db.low, yahoo_data.Low), (db.close, yahoo_data.Close)] with
    | .error _ => false
    | .ok false => false
    | .ok true => checkVolume db.volume yahoo_data.Volume

/-- `stock.id == stock_id and date == d` existence test on `daily_prices`. -/
def hasPrice (db : DB) (stock_id : ℕ) (d : ℤ) : Bool :=
  db.prices.any fun r => r.stock_id == stock_id && r.date == d

/-- `order_by(date.desc()).first()` over a list of price rows. -/
def latestPrice (rows : List PriceRow) : Option PriceRow :=
  rows.foldl (fun acc r =>
    match acc with
    | none => some r
    | some b => if b.date < r.date then some r else some b) none

/-- `DailyOHLCVSyncer.get_latest_ohlcv_data`: the most recent stored row as a
dictionary, `none` when the stock has no rows. -/
def get_latest_ohlcv_data (db : DB) (stock_id : ℕ) : Option DbOHLCV :=
  (latestPrice (db.prices.filter fun r => r.stock_id == stock_id)).map
    fun p => ⟨p.date, some p.open_price, some p.high_price, some p.low_price,
      some p.close_price, p.volume⟩

/-- Building one `bulk_data` entry in `save_ohlcv_data`; `none` when a
`float()` conversion of a missing price raises. -/
def rowToPrice (stock_id : ℕ) (r : YRow) : Option PriceRow :=
  match r.Open, r.High, r.Low, r.Close with
  | some o, some h, some l, some c =>
    some { stock_id := stock_id, date := r.date, open_price := o,
           high_price := h, low_price := l, close_price := c,
           volume := r.Volume.map pyInt,
           turnover := r.Volume.map fun v => o * v }
  | _, _, _, _ => none

/-- The membership test of the dedup mask in `save_ohlcv_data`: the
candidate keys are `datetime.date` objects (`data.index.map(x.date())`)
while `existing_dates` holds the `datetime.datetime` values SQLAlchemy reads
back from the `DateTime` column `DailyPrice.date`; in Python a `date` never
equals (or hashes together with) a `datetime`, so the `isin` membership is
identically false. -/
def dateInDatetimeSet (_d : ℤ) (_existing : List ℤ) : Bool := false

/-- `DailyOHLCVSyncer.save_ohlcv_data`: batched existence lookup, an
attempted set-difference dedup, bulk insert.  The batched `IN` queries do
match (the SQL side coerces the date keys to the midnight timestamps the
rows were stored with) and return the overlapping stored values as
datetimes, but the pandas-side `isin` mask then compares `date` keys against
those `datetime` values and never matches (`dateInDatetimeSet`), so the
filter keeps every candidate row and overlapping rows are re-inserted as
duplicates.  `insertRaises` injects a storage error during the bulk insert;
any exception rolls back and returns 0. -/
def save_ohlcv_data (db : DB) (stock_id : ℕ) (data : List YRow)
    (insertRaises : Bool) : DB × ℕ :=
  if data.isEmpty then (db, 0)
  else
    let dates_list := data.map fun r => r.date
    let existing_dates := (db.prices.filter fun r =>
      r.stock_id == stock_id && dates_list.contains r.date).map fun r =>
        r.date
    let new_data := data.filter fun r =>
      !dateInDatetimeSet r.date existing_dates
    if new_data.isEmpty then (db, 0)
    else
      match new_data.mapM (rowToPrice stock_id) with
      | none => (db, 0)
      | some bulk =>
        if insertRaises then (db, 0)
        else ({ db with prices := db.prices ++ bulk }, bulk.length)

/-- `DailyOHLCVSyncer.delete_all_ohlcv_data` (successful path). -/
def delete_all_ohlcv_data (db : DB) (stock_id : ℕ) : DB :=
  { db with prices := db.prices.filter fun r => !(r.stock_id == stock_id) }

/-- `DailyOHLCVSyncer.update_sync_tracker`: update the first matching
`(stock_id, 'ohlcv')` row, else insert a fresh one. -/
def update_sync_tracker (db : DB) (now : ℤ) (stock_id : ℕ)
    (last_data_date : Option ℤ) (records_count : ℤ) (status : String)
    (error_message : Option String) : DB :=
  let isOhlcv : Tracker → Bool :=
    fun t => t.stock_id == stock_id && t.data_type == "ohlcv"
  let setFields : Tracker → Tracker :=
    fun t => { t with last_sync_time := some now,
                      last_data_date := last_data_date,
                      records_count := records_count,
                      sync_status := status,
                      error_message := error_message }
  if db.trackers.any isOhlcv then
    { db with trackers := updateFirst isOhlcv setFields db.trackers }
  else
    { db with trackers := db.trackers ++
        [⟨stock_id, "ohlcv", some now, last_data_date, records_count, status,
          error_message⟩] }

/-- Outcome of `sync_stock_ohlcv`: the threaded store and the
`(success, message)` pair it returns. -/
structure SyncOutcome where
  db : DB
  success : Bool
  message : String
deriving DecidableEq, Repr

/-- Tail of `sync_stock_ohlcv`: save the fetched rows and, only when some
were written, update the tracker with the last fetched date and the count. -/
def saveAndTrack (db : DB) (stock_id : ℕ) (now : ℤ) (rows : List YRow)
    (insertRaises : Bool) : SyncOutcome :=
  let s := save_ohlcv_data db stock_id rows insertRaises
  if 0 < s.2 then
    match rows.getLast? with
    | some last =>
      ⟨update_sync_tracker s.1 now stock_id (some last.date) s.2 "success"
        none, true, "Synced " ++ toString s.2 ++ " records"⟩
    | none => ⟨s.1, true, "Synced " ++ toString s.2 ++ " records"⟩
  else ⟨s.1, true, "No new records"⟩

/-- `DailyOHLCVSyncer.sync_stock_ohlcv`.  `fetch1` is the Yahoo response to
the first fetch (incremental, or full when no local data), `fetch_full` the
response to the full re-fetch after a validation failure; `none` models a
fetch error (`fetch_yahoo_data` returns `None` on error or empty data). -/
def sync_stock_ohlcv (db : DB) (stock_id : ℕ) (now : ℤ)
    (fetch1 fetch_full : Option (List YRow)) (tolerance : ℚ)
    (validate_only insertRaises : Bool) : SyncOutcome :=
  let latest_db_data := get_latest_ohlcv_data db stock_id
  let proceed : Bool :=
    match latest_db_data with
    | none => true
    | some latest => ¬ (latest.date + 1 ≥ now)
  match latest_db_data, validate_only with
  | some _, true => ⟨db, true, "Validation completed"⟩
  | _, _ =>
    if ¬ proceed then ⟨db, true, "Data is up to date"⟩
    else
      match fetch1 with
      | none => ⟨db, true, "No new data available"⟩
      | some rows =>
        if rows.isEmpty then ⟨db, true, "No new data available"⟩
        else
          match latest_db_data, rows.getLast? with
          | some latest, some last_row =>
            if ¬ validate_ohlcv_data tolerance (some latest) last_row then
              let db1 := delete_all_ohlcv_data db stock_id
              match fetch_full with
              | none => ⟨db1, false, "Failed to fetch complete data"⟩
              | some rows2 =>
                if rows2.isEmpty then
                  ⟨db1, false, "Failed to fetch complete data"⟩
                else saveAndTrack db1 stock_id now rows2 insertRaises
            else saveAndTrack db stock_id now rows insertRaises
          | _, _ => saveAndTrack db stock_id now rows insertRaises

/-- `DailyOHLCVSyncer.sync_all_stocks`: sequential loop over stocks counting
successes and failures; a failed stock never aborts the loop.  The per-batch
commit is the identity on the threaded store.  `oracle` supplies each stock's
two fetch responses. -/
def sync_all_stocks (db : DB) (stocks : List ℕ) (now : ℤ)
    (oracle : ℕ → Option (List YRow) × Option (List YRow)) (tolerance : ℚ)
    (validate_only insertRaises : Bool) : DB × ℕ × ℕ :=
  stocks.foldl (fun acc sid =>
    let out := sync_stock_ohlcv acc.1 sid now (oracle sid).1 (oracle sid).2
      tolerance validate_only insertRaises
    (out.db, if out.success then acc.2.1 + 1 else acc.2.1,
      if out.success then acc.2.2 else acc.2.2 + 1))
    (db, 0, 0)

end Daily

namespace Smart

/-! ## `scripts/smart_yahoo_syncer.py` (`SmartYahooSyncer`); times are
seconds. -/

/-- `SmartYahooSyncer.safe_db_operation`, unrolled on the loop counter.
`op n` is the outcome of executing the wrapped operation on attempt `n`
(0-based); the result carries the value or propagated error, the number of
attempts made, and the list of backoff delays slept.  The first argument is
the remaining iterations of `range(max_retries)`. -/
def retryGo (op : ℕ → Except String α) :
    ℕ → ℕ → ℕ → Except String α × ℕ × List ℕ
  | 0, attempt, _ => (.error "", attempt, [])
  | fuel + 1, attempt, delay =>
    match op attempt with
    | .ok v => (.ok v, attempt + 1, [])
    | .error e =>
      if pyIn "server closed the connection" e ∧ 0 < fuel then
        let r := retryGo op fuel (attempt + 1) (delay * 2)
        (r.1, r.2.1, delay :: r.2.2)
      else (.error e, attempt + 1, [])

/-- `safe_db_operation` with `max_retries = 3`, `retry_delay = 2`. -/
def safe_db_operation (op : ℕ → Except String α) :
    Except String α × ℕ × List ℕ :=
  retryGo op 3 0 2

/-- `.filter(stock_id, data_type).first()` over `sync_tracker`. -/
def findTracker (db : DB) (stock_id : ℕ) (data_type : String) :
    Option Tracker :=
  db.trackers.find? fun t =>
    t.stock_id == stock_id && t.data_type == data_type

/-- `SmartYahooSyncer.get_sync_tracker`: get **or create** the tracker row;
a missing row is inserted with `last_sync_time = utcnow()` and the column
defaults, and the (never-`None`) row is returned as a dictionary. -/
def get_sync_tracker (db : DB) (now : ℤ) (stock_id : ℕ)
    (data_type : String) : DB × Tracker :=
  match findTracker db stock_id data_type with
  | some t => (db, t)
  | none =>
    let t : Tracker :=
      { stock_id := stock_id, data_type := data_type,
        last_sync_time := some now, last_data_date := none,
        records_count := 0, sync_status := "success", error_message := none }
    ({ db with trackers := db.trackers ++ [t] }, t)

/-- `SmartYahooSyncer.update_sync_tracker`: update the first matching row;
no-op when the row is absent. -/
def update_sync_tracker (db : DB) (now : ℤ) (stock_id : ℕ)
    (data_type : String) (last_data_date : Option ℤ) (records_count : ℤ)
    (status : String) (error_msg : Option String) : DB :=
  let sameKey : Tracker → Bool :=
    fun t => t.stock_id == stock_id && t.data_type == data_type
  let setFields : Tracker → Tracker :=
    fun t => { t with last_sync_time := some now,
                      last_data_date := last_data_date,
                      records_count := records_count,
                      sync_status := status,
                      error_message := error_msg }
  { db with trackers := updateFirst sameKey setFields db.trackers }

/-- Result of one `smart_sync_*` call: the threaded store, the saved-record
count it returns, and whether a provider fetch was issued (cache miss past
the staleness gate). -/
structure SmartResult where
  db : DB
  saved : ℕ
  fetchIssued : Bool
deriving DecidableEq, Repr

/-- The row-by-row save loop of `smart_sync_ohlcv` (`_save_ohlcv_data`):
per-row existence check, insert of missing dates, tracking the last inserted
date; a missing price/volume value makes `float()`/`int()` raise. -/
def smartSaveOhlcv (db : DB) (stock_id : ℕ) (rows : List YRow) :
    Except Unit (DB × ℕ × Option ℤ) :=
  rows.foldlM (fun acc r =>
    if Daily.hasPrice acc.1 stock_id r.date then pure acc
    else
      match r.Open, r.High, r.Low, r.Close, r.Volume with
      | some o, some h, some l, some c, some v =>
        pure ({ acc.1 with prices := acc.1.prices ++
                  [⟨stock_id, r.date, o, h, l, c, some (pyInt v), none⟩] },
              acc.2.1 + 1, some r.date)
      | _, _, _, _, _ => .error ())
    (db, 0, none)

/-- `SmartYahooSyncer.smart_sync_ohlcv`.  `cached` is the fetch-cache entry
for this key (`none` = miss, in which case the provider is called and returns
`fetched`).  The staleness gate compares `last_data_date` — not the last
attempt time — against a 1-day interval. -/
def smart_sync_ohlcv (db : DB) (now : ℤ) (stock_id : ℕ)
    (cached : Option (List YRow)) (fetched : List YRow) : SmartResult :=
  let g := get_sync_tracker db now stock_id "ohlcv"
  if g.2.last_data_date.isSome ∧
      daysOf (now - g.2.last_data_date.getD 0) < 1 then
    ⟨g.1, 0, false⟩
  else
    let fetchIssued := cached.isNone
    let historical := cached.getD fetched
    if historical.isEmpty then ⟨g.1, 0, fetchIssued⟩
    else
      match smartSaveOhlcv g.1 stock_id historical with
      | .error _ =>
        let g2 := get_sync_tracker g.1 now stock_id "ohlcv"
        ⟨update_sync_tracker g2.1 now stock_id "ohlcv" g2.2.last_data_date 0
          "failed" (some "exception"), 0, fetchIssued⟩
      | .ok (db2, saved, last_date) =>
        if 0 < saved then
          match last_date with
          | some ld =>
            ⟨update_sync_tracker db2 now stock_id "ohlcv" (some ld)
              (saved : ℤ) "success" none, saved, fetchIssued⟩
          | none => ⟨db2, saved, fetchIssued⟩
        else ⟨db2, saved, fetchIssued⟩

/-- The `content` dictionary of one fetched news item. -/
structure NewsContent where
  title : Option String
  headline : Option String
  summary : Option String
  description : Option String
  source : Option String
  url : Option String
  publishedTime : Option ℤ
deriving DecidableEq, Repr

/-- The news item loop of `_save_news_data`: items without a `content`
dictionary (`none`) are ignored; extraction uses `or`-chained defaults; the
natural key is `(stock_id, title, published_date)`. -/
def saveNewsData (db : DB) (now : ℤ) (stock_id : ℕ)
    (news_data : List (Option NewsContent)) : DB × ℕ × Option ℤ :=
  news_data.foldl (fun acc item =>
    match item with
    | none => acc
    | some c =>
      let title := pyOr2 c.title c.headline "No Title"
      let content := pyOr2 c.summary c.description "No content"
      let source := if strTruthy c.source then c.source.getD "" else "Unknown"
      let url := if strTruthy c.url then c.url.getD "" else ""
      let published_date := c.publishedTime.getD now
      if acc.1.news.any (fun n => n.stock_id == stock_id &&
          n.title == title && n.published_date == published_date) then acc
      else
        let latest :=
          if acc.2.2.isNone ∨ acc.2.2.getD 0 < published_date then
            some published_date
          else acc.2.2
        ({ acc.1 with news := acc.1.news ++
            [⟨stock_id, title, content, source, url, published_date⟩] },
          acc.2.1 + 1, latest))
    (db, 0, none)

/-- `SmartYahooSyncer.smart_sync_news`: 1-hour staleness gate on
`last_sync_time`, then cache lookup / fetch, then the save loop. -/
def smart_sync_news (db : DB) (now : ℤ) (stock_id : ℕ)
    (cached : Option (List (Option NewsContent)))
    (fetched : List (Option NewsContent)) : SmartResult :=
  let g := get_sync_tracker db now stock_id "news"
  if g.2.last_sync_time.isSome ∧ now - g.2.last_sync_time.getD 0 < 3600 then
    ⟨g.1, 0, false⟩
  else
    let fetchIssued := cached.isNone
    let news_data := cached.getD fetched
    if news_data.isEmpty then ⟨g.1, 0, fetchIssued⟩
    else
      let s := saveNewsData g.1 now stock_id news_data
      if 0 < s.2.1 then
        match s.2.2 with
        | some ld =>
          ⟨update_sync_tracker s.1 now stock_id "news" (some ld) (s.2.1 : ℤ)
            "success" none, s.2.1, fetchIssued⟩
        | none => ⟨s.1, s.2.1, fetchIssued⟩
      else ⟨s.1, s.2.1, fetchIssued⟩

/-- `latest_date` update step shared by the financial loops. -/
def updLatest (latest : Option QDate) (d : QDate) : Option QDate :=
  if latest.isNone ∨ QDate.ltb (latest.getD ⟨0, 0, 0⟩) d then some d
  else latest

/-- The two statement loops of `_save_financials_data`; each fetched
statement is keyed by its timestamp (`none` input = that fetch raised and was
logged and skipped).  Quarterly rows are keyed on
`(stock_id, 'quarterly_financials', year, quarter)`, cash-flow rows on
`(stock_id, 'cash_flow', year)`. -/
def saveFinancialsData (db : DB) (stock_id : ℕ)
    (quarterly cashflow : Option (List QDate)) : DB × ℕ × Option QDate :=
  let step1 := (quarterly.getD []).foldl (fun acc d =>
    let q := (d.month - 1) / 3 + 1
    if acc.1.financial_statements.any (fun f => f.stock_id == stock_id &&
        f.statement_type == "quarterly_financials" && f.year == d.year &&
        f.quarter == some q) then acc
    else
      ({ acc.1 with financial_statements := acc.1.financial_statements ++
          [⟨stock_id, "quarterly_financials", "Quarterly", d.year, some q,
            true, d⟩] },
        acc.2.1 + 1, updLatest acc.2.2 d))
    (db, 0, none)
  (cashflow.getD []).foldl (fun acc d =>
    if acc.1.financial_statements.any (fun f => f.stock_id == stock_id &&
        f.statement_type == "cash_flow" && f.year == d.year) then acc
    else
      ({ acc.1 with financial_statements := acc.1.financial_statements ++
          [⟨stock_id, "cash_flow", "Annual", d.year, none, true, d⟩] },
        acc.2.1 + 1, updLatest acc.2.2 d))
    step1

/-- `SmartYahooSyncer.smart_sync_financials`: 7-day staleness gate on
`last_sync_time`; the body always touches the provider. -/
def smart_sync_financials (db : DB) (now : ℤ) (stock_id : ℕ)
    (quarterly cashflow : Option (List QDate)) : SmartResult :=
  let g := get_sync_tracker db now stock_id "financials"
  if g.2.last_sync_time.isSome ∧
      daysOf (now - g.2.last_sync_time.getD 0) < 7 then
    ⟨g.1, 0, false⟩
  else
    let s := saveFinancialsData g.1 stock_id quarterly cashflow
    if 0 < s.2.1 then
      match s.2.2 with
      | some ld =>
        ⟨update_sync_tracker s.1 now stock_id "financials"
          (some ld.code) (s.2.1 : ℤ) "success" none, s.2.1, true⟩
      | none => ⟨s.1, s.2.1, true⟩
    else ⟨s.1, s.2.1, true⟩

/-- `strftime('%B')`. -/
def monthName : ℕ → String
  | 1 => "January" | 2 => "February" | 3 => "March" | 4 => "April"
  | 5 => "May" | 6 => "June" | 7 => "July" | 8 => "August"
  | 9 => "September" | 10 => "October" | 11 => "November"
  | 12 => "December" | _ => ""

/-- The earnings-dates loop of `_save_earnings_data`: existence via
`title LIKE '%Earnings%'` and the date (`none` input = fetch raised). -/
def saveEarningsData (db : DB) (stock_id : ℕ)
    (earnings_dates : Option (List QDate)) : DB × ℕ × Option QDate :=
  (earnings_dates.getD []).foldl (fun acc d =>
    if acc.1.announcements.any (fun a => a.stock_id == stock_id &&
        pyIn "Earnings" a.title && a.announcement_date == d) then acc
    else
      let title := "Earnings Announcement - " ++ monthName d.month ++ " " ++
        toString d.year
      ({ acc.1 with announcements := acc.1.announcements ++
          [⟨stock_id, title, d⟩] },
        acc.2.1 + 1, updLatest acc.2.2 d))
    (db, 0, none)

/-- `SmartYahooSyncer.smart_sync_earnings`: 30-day staleness gate on
`last_sync_time`. -/
def smart_sync_earnings (db : DB) (now : ℤ) (stock_id : ℕ)
    (earnings_dates : Option (List QDate)) : SmartResult :=
  let g := get_sync_tracker db now stock_id "earnings"
  if g.2.last_sync_time.isSome ∧
      daysOf (now - g.2.last_sync_time.getD 0) < 30 then
    ⟨g.1, 0, false⟩
  else
    let s := saveEarningsData g.1 stock_id earnings_dates
    if 0 < s.2.1 then
      match s.2.2 with
      | some ld =>
        ⟨update_sync_tracker s.1 now stock_id "earnings"
          (some ld.code) (s.2.1 : ℤ) "success" none, s.2.1, true⟩
      | none => ⟨s.1, s.2.1, true⟩
    else ⟨s.1, s.2.1, true⟩

/-- One column of the fetched quarterly DataFrame: metric labels with their
values (`none` = NaN). -/
def Metrics := List (String × Option ℚ)

/-- `quarter_series.get(key, dflt)`: label lookup with default; a present
label with NaN value yields `none`, not the default. -/
def seriesGet (m : Metrics) (key : String) (dflt : Option ℚ) : Option ℚ :=
  match m.find? (fun kv => kv.1 == key) with
  | some kv => kv.2
  | none => dflt

/-- The metric-name mapping loop shared by `_create_quarterly_record` and
`_update_quarterly_record`: NaN values are skipped, labels are matched by
lowercase substring in the source's `elif` order. -/
def applyMetrics (r : QResult) (data : Metrics) : QResult :=
  data.foldl (fun r kv =>
    match kv.2 with
    | none => r
    | some v =>
      let ml := pyLower kv.1
      if pyIn "revenue" ml ∨ pyIn "total revenue" ml then
        { r with revenue := some v }
      else if pyIn "net income" ml ∨ pyIn "net profit" ml then
        { r with net_profit := some v }
      else if pyIn "ebitda" ml then { r with ebitda := some v }
      else if pyIn "operating income" ml ∨ pyIn "operating profit" ml then
        { r with operating_profit := some v }
      else if pyIn "eps" ml ∨ pyIn "earnings per share" ml then
        { r with eps := some v }
      else r) r

/-- `SmartYahooSyncer._update_quarterly_record`: map the metrics onto the
existing row, then recompute the margins under truthiness guards. -/
def updateQuarterlyRecord (r : QResult) (data : Metrics) : QResult :=
  let r1 := applyMetrics r data
  let om := some (r1.operating_profit.getD 0 / r1.revenue.getD 0 * 100)
  let r2 :=
    if truthy r1.revenue ∧ truthy r1.operating_profit then
      { r1 with operating_margin := om }
    else r1
  let nm := some (r2.net_profit.getD 0 / r2.revenue.getD 0 * 100)
  if truthy r2.revenue ∧ truthy r2.net_profit then
    { r2 with net_margin := nm }
  else r2

/-- `SmartYahooSyncer._create_quarterly_record`: build a fresh row; both
margin guards test `revenue and net_profit`, so a `None` operating profit
under a truthy guard makes `None / revenue` raise and the handler return
`None` (the row is then not inserted). -/
def createQuarterlyRecord (stock_id : ℕ) (quarter_str : String) (year : ℤ)
    (quarter_num : ℕ) (quarter_date : QDate) (data : Metrics) :
    Option QResult :=
  let base : QResult :=
    { stock_id := stock_id, quarter := quarter_str, year := year,
      quarter_number := quarter_num, revenue := none, net_profit := none,
      ebitda := none, operating_profit := none, operating_margin := none,
      net_margin := none, eps := none, is_consolidated := true,
      announcement_date := quarter_date }
  let r1 := applyMetrics base data
  if truthy r1.revenue ∧ truthy r1.net_profit then
    match r1.operating_profit with
    | none => none
    | some op =>
      let om := some (op / r1.revenue.getD 0 * 100)
      let r2 : QResult := { r1 with operating_margin := om }
      let nm := some (r2.net_profit.getD 0 / r2.revenue.getD 0 * 100)
      some { r2 with net_margin := nm }
  else some r1

/-- The per-quarter loop of `smart_sync_quarterly_results`
(`_save_quarterly_data`): data-quality gate on truthy revenue and net
profit, then update-in-place of an existing `(stock_id, quarter, year)` row
or creation of a new one; `latest_date` advances for every processed
quarter. -/
def saveQuarterlyData (db : DB) (stock_id : ℕ)
    (cols : List (QDate × Metrics)) : DB × ℕ × Option QDate :=
  cols.foldl (fun acc col =>
    let qdate := col.1
    let quarter_num := (qdate.month - 1) / 3 + 1
    let year := qdate.year
    let quarter_str := "Q" ++ toString quarter_num ++ " " ++ toString year
    let revenue := seriesGet col.2 "Total Revenue"
      (seriesGet col.2 "Revenue" none)
    let net_profit := seriesGet col.2 "Net Income"
      (seriesGet col.2 "Net Profit" none)
    if ¬ truthy revenue ∨ ¬ truthy net_profit then acc
    else
      let sameKey : QResult → Bool := fun q =>
        q.stock_id == stock_id && q.quarter == quarter_str && q.year == year
      let db2 : DB × ℕ :=
        match acc.1.quarterly_results.find? sameKey with
        | some _ =>
          let qs := updateFirst sameKey
            (fun q => updateQuarterlyRecord q col.2) acc.1.quarterly_results
          ({ acc.1 with quarterly_results := qs }, acc.2.1)
        | none =>
          match createQuarterlyRecord stock_id quarter_str year quarter_num
              qdate col.2 with
          | some nq =>
            let qs := acc.1.quarterly_results ++ [nq]
            ({ acc.1 with quarterly_results := qs }, acc.2.1 + 1)
          | none => (acc.1, acc.2.1)
      (db2.1, db2.2, updLatest acc.2.2 qdate))
    (db, 0, none)

end Smart

/-! ## Claims about the Validator (C1, C7, C8) -/

/-- C1: a price field whose relative delta `abs(local - remote) / local`
equals the tolerance exactly passes validation, and one whose delta strictly
exceeds it makes validation return FAIL (the source tests
`diff > self.validation_tolerance`). -/
theorem validation_boundary (t a d y : ℚ) (ha : a ≠ 0) (hd : d ≠ 0)
    (ht : 0 ≤ t) :
    (|d - y| / d = t →
      Daily.validate_ohlcv_data t
        (some ⟨0, some a, some a, some a, some d, none⟩)
        ⟨0, some a, some a, some a, some y, none⟩ = true) ∧
    (|d - y| / d > t →
      Daily.validate_ohlcv_data t
        (some ⟨0, some a, some a, some a, some d, none⟩)
        ⟨0, some a, some a, some a, some y, none⟩ = false) := by
  have hskip : ¬ (|a - a| / a > t) := by
    rw [sub_self, abs_zero, zero_div]
    exact not_lt.mpr ht
  constructor
  · intro hEq
    simp only [Daily.validate_ohlcv_data, Daily.checkPriceFields,
      Daily.checkPriceField, Daily.checkVolume]
    rw [if_neg ha, if_neg hskip, if_neg hd,
      if_neg (by rw [hEq]; exact lt_irrefl t)]
  · intro hGt
    simp only [Daily.validate_ohlcv_data, Daily.checkPriceFields,
      Daily.checkPriceField, Daily.checkVolume]
    rw [if_neg ha, if_neg hskip, if_neg hd, if_pos hGt]

/-- C1 witness: local close 100.0 with tolerance 0.01 — remote close 101.0
(delta exactly 0.01) passes, remote close 101.01 (delta 0.0101) fails. -/
theorem validation_boundary_witness :
    Daily.validate_ohlcv_data (1/100)
      (some ⟨0, some 100, some 100, some 100, some 100, none⟩)
      ⟨0, some 100, some 100, some 100, some 101, none⟩ = true ∧
    Daily.validate_ohlcv_data (1/100)
      (some ⟨0, some 100, some 100, some 100, some 100, none⟩)
      ⟨0, some 100, some 100, some 100, some (10101/100), none⟩ = false :=
  ⟨(validation_boundary (1/100) 100 100 101 (by norm_num) (by norm_num)
      (by norm_num)).1 (by norm_num),
   (validation_boundary (1/100) 100 100 (10101/100) (by norm_num)
      (by norm_num) (by norm_num)).2 (by
        rw [show (100 : ℚ) - 10101/100 = -(101/100) by norm_num, abs_neg,
          abs_of_pos (by norm_num : (0 : ℚ) < 101/100)]
        norm_num)⟩

/-- C7 counterexample: with a zero local `open` value (all other comparisons
agreeing exactly) validation returns FAIL — the field is not skipped; the
unguarded `abs(local - remote) / local` raises ZeroDivisionError and the
handler returns `False`.  The claim predicts the field is skipped and
validation passes here. -/
theorem validation_zero_local_ce :
    Daily.validate_ohlcv_data (1/100)
      (some ⟨0, some 0, some 100, some 100, some 100, none⟩)
      ⟨0, some 100, some 100, some 100, some 100, none⟩ = false := by
  norm_num [Daily.validate_ohlcv_data, Daily.checkPriceFields,
    Daily.checkPriceField, Daily.checkVolume]

/-- C7 amended: a `None` local price value is skipped, but a zero local
price value and a `None` remote price value both make validation return
FAIL through the exception handler; only the volume comparison guards
zero/`None` on both sides (Python truthiness) and is skipped. -/
theorem validation_null_zero_guards (t a y vy : ℚ) (ha : a ≠ 0)
    (ht : 0 ≤ t) :
    Daily.validate_ohlcv_data t
      (some ⟨0, some a, some a, some a, none, none⟩)
      ⟨0, some a, some a, some a, some y, none⟩ = true ∧
    Daily.validate_ohlcv_data t
      (some ⟨0, some a, some a, some a, some 0, none⟩)
      ⟨0, some a, some a, some a, some y, none⟩ = false ∧
    Daily.validate_ohlcv_data t
      (some ⟨0, some a, some a, some a, some a, none⟩)
      ⟨0, some a, some a, some a, none, none⟩ = false ∧
    Daily.validate_ohlcv_data t
      (some ⟨0, some a, some a, some a, some a, some 0⟩)
      ⟨0, some a, some a, some a, some a, some vy⟩ = true := by
  have hskip : ¬ (|a - a| / a > t) := by
    rw [sub_self, abs_zero, zero_div]
    exact not_lt.mpr ht
  refine ⟨?_, ?_, ?_, ?_⟩
  · simp only [Daily.validate_ohlcv_data, Daily.checkPriceFields,
      Daily.checkPriceField, Daily.checkVolume]
    rw [if_neg ha, if_neg hskip]
  · simp only [Daily.validate_ohlcv_data, Daily.checkPriceFields,
      Daily.checkPriceField, Daily.checkVolume]
    rw [if_neg ha, if_neg hskip]
    simp
  · simp only [Daily.validate_ohlcv_data, Daily.checkPriceFields,
      Daily.checkPriceField, Daily.checkVolume]
    rw [if_neg ha, if_neg hskip]
  · simp only [Daily.validate_ohlcv_data, Daily.checkPriceFields,
      Daily.checkPriceField, Daily.checkVolume]
    rw [if_neg ha, if_neg hskip]
    simp

/-- C7 witness: the four amended guard behaviours at concrete values. -/
theorem validation_null_zero_guards_witness :
    Daily.validate_ohlcv_data (1/100)
      (some ⟨0, some 100, some 100, some 100, none, none⟩)
      ⟨0, some 100, some 100, some 100, some 55, none⟩ = true ∧
    Daily.validate_ohlcv_data (1/100)
      (some ⟨0, some 100, some 100, some 100, some 0, none⟩)
      ⟨0, some 100, some 100, some 100, some 55, none⟩ = false ∧
    Daily.validate_ohlcv_data (1/100)
      (some ⟨0, some 100, some 100, some 100, some 100, none⟩)
      ⟨0, some 100, some 100, some 100, none, none⟩ = false ∧
    Daily.validate_ohlcv_data (1/100)
      (some ⟨0, some 100, some 100, some 100, some 100, some 0⟩)
      ⟨0, some 100, some 100, some 100, some 100, some 7⟩ = true :=
  validation_null_zero_guards (1/100) 100 55 7 (by norm_num) (by norm_num)

/-- C8 counterexample: with configured tolerance `t = 0.005`, a volume
relative delta of 0.07 strictly exceeds `10·t = 0.05`, yet validation
passes — the volume tolerance is not `10·t`.  The claim predicts FAIL
here. -/
theorem volume_tolerance_ce :
    Daily.validate_ohlcv_data (1/200)
      (some ⟨0, some 100, some 100, some 100, some 100, some 100⟩)
      ⟨0, some 100, some 100, some 100, some 100, some 107⟩ = true ∧
    (7 : ℚ)/100 > 10 * (1/200) := by
  constructor
  · norm_num [Daily.validate_ohlcv_data, Daily.checkPriceFields,
      Daily.checkPriceField, Daily.checkVolume, pyInt]
  · norm_num

/-- C8 amended: the volume field is validated against the fixed tolerance
0.1, irrespective of the configured price tolerance `t` (the relative delta
uses `int()`-truncated remote volume); it coincides with `10·t` only at the
default `t = 0.01`. -/
theorem volume_fixed_tolerance (t a yv : ℚ) (dv : ℤ) (ha : a ≠ 0)
    (ht : 0 ≤ t) (hdv : dv ≠ 0) (hyv : yv ≠ 0) :
    (¬ (|(dv : ℚ) - (pyInt yv : ℚ)| / (dv : ℚ) > 1/10) →
      Daily.validate_ohlcv_data t
        (some ⟨0, some a, some a, some a, some a, some dv⟩)
        ⟨0, some a, some a, some a, some a, some yv⟩ = true) ∧
    (|(dv : ℚ) - (pyInt yv : ℚ)| / (dv : ℚ) > 1/10 →
      Daily.validate_ohlcv_data t
        (some ⟨0, some a, some a, some a, some a, some dv⟩)
        ⟨0, some a, some a, some a, some a, some yv⟩ = false) := by
  have hskip : ¬ (|a - a| / a > t) := by
    rw [sub_self, abs_zero, zero_div]
    exact not_lt.mpr ht
  have hor : ¬ (dv = 0 ∨ yv = 0) := not_or.mpr ⟨hdv, hyv⟩
  constructor
  · intro hle
    simp only [Daily.validate_ohlcv_data, Daily.checkPriceFields,
      Daily.checkPriceField, Daily.checkVolume]
    rw [if_neg ha, if_neg hskip, if_neg hor, if_neg hle]
  · intro hgt
    simp only [Daily.validate_ohlcv_data, Daily.checkPriceFields,
      Daily.checkPriceField, Daily.checkVolume]
    rw [if_neg ha, if_neg hskip, if_neg hor, if_pos hgt]

/-- C8 witness: at `t = 0.005`, volume delta 0.07 passes and volume delta
0.11 fails — the boundary sits at the fixed 0.1, not at `10·t = 0.05`. -/
theorem volume_fixed_tolerance_witness :
    Daily.validate_ohlcv_data (1/200)
      (some ⟨0, some 100, some 100, some 100, some 100, some 100⟩)
      ⟨0, some 100, some 100, some 100, some 100, some 107⟩ = true ∧
    Daily.validate_ohlcv_data (1/200)
      (some ⟨0, some 100, some 100, some 100, some 100, some 100⟩)
      ⟨0, some 100, some 100, some 100, some 100, some 111⟩ = false :=
  ⟨(volume_fixed_tolerance (1/200) 100 107 100 (by norm_num) (by norm_num)
      (by norm_num) (by norm_num)).1 (by norm_num [pyInt]),
   (volume_fixed_tolerance (1/200) 100 111 100 (by norm_num) (by norm_num)
      (by norm_num) (by norm_num)).2 (by norm_num [pyInt])⟩

/-! ## Claim about the retry helper (C6) -/

/-- C6: under the retry wrapper, two consecutive transient storage failures
(recognised by the "server closed the connection" error class) followed by a
success yield exactly 3 attempts with backoff delays 2s then 4s and overall
success; three consecutive transient failures exhaust the budget and the
error is propagated after the same 3 attempts. -/
theorem retry_backoff (op : ℕ → Except String ℕ) (v : ℕ) (e : String)
    (htrans : pyIn "server closed the connection" e = true) :
    ((op 0 = .error e ∧ op 1 = .error e ∧ op 2 = .ok v) →
      Smart.safe_db_operation op = (.ok v, 3, [2, 4])) ∧
    ((op 0 = .error e ∧ op 1 = .error e ∧ op 2 = .error e) →
      Smart.safe_db_operation op = (.error e, 3, [2, 4])) := by
  constructor
  · rintro ⟨h0, h1, h2⟩
    simp [Smart.safe_db_operation, Smart.retryGo, h0, h1, h2, htrans]
  · rintro ⟨h0, h1, h2⟩
    simp [Smart.safe_db_operation, Smart.retryGo, h0, h1, h2, htrans]

/-- C6 witness: concrete operations failing twice then succeeding, and
failing on every attempt. -/
theorem retry_backoff_witness :
    Smart.safe_db_operation (fun n => if n < 2 then
        (.error "server closed the connection" : Except String ℕ)
      else .ok 7) = (.ok 7, 3, [2, 4]) ∧
    Smart.safe_db_operation (fun _ =>
        (.error "server closed the connection" : Except String ℕ)) =
      (.error "server closed the connection", 3, [2, 4]) :=
  ⟨(retry_backoff _ 7 _ (by decide)).1 ⟨rfl, rfl, rfl⟩,
   (retry_backoff _ 7 _ (by decide)).2 ⟨rfl, rfl, rfl⟩⟩

/-! ## Claim about Sync Tracker Store reads (C9) -/

/-- C9 counterexample: reading the tracker of a never-synced
`(entity, data_type)` through the smart syncer does not return `None` and
does not leave the store unchanged — it creates and returns a fresh
checkpoint row (with `last_sync_time` set to the read time) as a side effect
of the read itself. -/
theorem tracker_create_on_read_ce :
    (Smart.get_sync_tracker DB.empty 1000 5 "ohlcv").1.trackers =
      [⟨5, "ohlcv", some 1000, none, 0, "success", none⟩] ∧
    DB.empty.trackers = [] := by
  constructor <;> rfl

/-- C9 amended: the smart syncer's tracker read has get-or-create semantics
— an existing row is returned with the store untouched, and a missing row is
created on read with `last_sync_time = now` and the column defaults; the
daily syncer's tracker write is what constructs a fresh checkpoint after an
attempt when none exists. -/
theorem tracker_get_semantics (db : DB) (now : ℤ) (sid : ℕ) (dt : String) :
    (∀ t, Smart.findTracker db sid dt = some t →
      Smart.get_sync_tracker db now sid dt = (db, t)) ∧
    (Smart.findTracker db sid dt = none →
      Smart.get_sync_tracker db now sid dt =
        ({ db with trackers := db.trackers ++
            [⟨sid, dt, some now, none, 0, "success", none⟩] },
         ⟨sid, dt, some now, none, 0, "success", none⟩)) ∧
    (∀ (ldd : Option ℤ) (rc : ℤ) (st : String) (em : Option String),
      db.trackers.any
        (fun t => t.stock_id == sid && t.data_type == "ohlcv") = false →
      Daily.update_sync_tracker db now sid ldd rc st em =
        { db with trackers := db.trackers ++
            [⟨sid, "ohlcv", some now, ldd, rc, st, em⟩] }) := by
  refine ⟨?_, ?_, ?_⟩
  · intro t ht
    simp [Smart.get_sync_tracker, ht]
  · intro hnone
    simp [Smart.get_sync_tracker, hnone]
  · intro ldd rc st em habs
    simp [Daily.update_sync_tracker, habs]

/-- C9 witness: the three tracker-read/write behaviours at concrete
stores. -/
theorem tracker_get_semantics_witness :
    Smart.get_sync_tracker
        { DB.empty with
            trackers := [⟨5, "ohlcv", some 7, some 3, 2, "success", none⟩] }
        1000 5 "ohlcv" =
      ({ DB.empty with
          trackers := [⟨5, "ohlcv", some 7, some 3, 2, "success", none⟩] },
       ⟨5, "ohlcv", some 7, some 3, 2, "success", none⟩) ∧
    Smart.get_sync_tracker DB.empty 1000 5 "news" =
      ({ DB.empty with
          trackers := [⟨5, "news", some 1000, none, 0, "success", none⟩] },
       ⟨5, "news", some 1000, none, 0, "success", none⟩) ∧
    Daily.update_sync_tracker DB.empty 1000 5 (some 3) 2 "failed"
        (some "boom") =
      { DB.empty with
          trackers := [⟨5, "ohlcv", some 1000, some 3, 2, "failed",
            some "boom"⟩] } :=
  ⟨(tracker_get_semantics _ 1000 5 "ohlcv").1 _ rfl,
   (tracker_get_semantics _ 1000 5 "news").2.1 rfl,
   (tracker_get_semantics _ 1000 5 "ohlcv").2.2 (some 3) 2 "failed"
     (some "boom") rfl⟩

/-! ## Claim about staleness gating (C5) -/

/-- C5 counterexample: an `ohlcv` tracker whose last attempt time
(`last_sync_time`) is the current instant — squarely within the 1-day
re-check interval — but whose `last_data_date` is 3 days old: the smart
sync still issues a provider fetch, because the `ohlcv` gate tests
`last_data_date`, not the last attempt time.  The claim predicts SKIPPED
with no fetch call. -/
theorem staleness_gate_ce :
    daysOf (8640000 - 8640000) < 1 ∧
    (Smart.smart_sync_ohlcv
      { DB.empty with
          trackers := [⟨1, "ohlcv", some 8640000, some 8380800, 3,
            "success", none⟩] }
      8640000 1 none []).fetchIssued = true := by
  constructor
  · decide
  · rfl

/-- C5 amended: the news (1 hour), financials (7 days) and earnings
(30 days) gates test the checkpoint's last attempt time
(`last_sync_time`) and skip with no fetch issued; the `ohlcv` gate instead
tests `last_data_date` against a 1-day interval and then skips with no
fetch issued. -/
theorem staleness_gates (db : DB) (now : ℤ) (sid : ℕ) :
    (∀ t d cached fetched, Smart.findTracker db sid "ohlcv" = some t →
      t.last_data_date = some d → daysOf (now - d) < 1 →
      Smart.smart_sync_ohlcv db now sid cached fetched = ⟨db, 0, false⟩) ∧
    (∀ t s cached fetched, Smart.findTracker db sid "news" = some t →
      t.last_sync_time = some s → now - s < 3600 →
      Smart.smart_sync_news db now sid cached fetched = ⟨db, 0, false⟩) ∧
    (∀ t s q c, Smart.findTracker db sid "financials" = some t →
      t.last_sync_time = some s → daysOf (now - s) < 7 →
      Smart.smart_sync_financials db now sid q c = ⟨db, 0, false⟩) ∧
    (∀ t s ed, Smart.findTracker db sid "earnings" = some t →
      t.last_sync_time = some s → daysOf (now - s) < 30 →
      Smart.smart_sync_earnings db now sid ed = ⟨db, 0, false⟩) := by
  refine ⟨?_, ?_, ?_, ?_⟩
  · intro t d cached fetched hfind hd hlt
    simp [Smart.smart_sync_ohlcv, Smart.get_sync_tracker, hfind, hd, hlt]
  · intro t s cached fetched hfind hs hlt
    simp [Smart.smart_sync_news, Smart.get_sync_tracker, hfind, hs, hlt]
  · intro t s q c hfind hs hlt
    simp [Smart.smart_sync_financials, Smart.get_sync_tracker, hfind, hs,
      hlt]
  · intro t s ed hfind hs hlt
    simp [Smart.smart_sync_earnings, Smart.get_sync_tracker, hfind, hs, hlt]

/-- C5 witness: all four gates skip with no fetch on a store whose four
trackers are within their respective intervals. -/
theorem staleness_gates_witness :
    Smart.smart_sync_ohlcv
        { DB.empty with trackers :=
            [⟨1, "ohlcv", some 0, some 8636400, 3, "success", none⟩,
             ⟨1, "news", some 8639900, none, 0, "success", none⟩,
             ⟨1, "financials", some 8553600, none, 0, "success", none⟩,
             ⟨1, "earnings", some 8467200, none, 0, "success", none⟩] }
        8640000 1 none [] =
      ⟨{ DB.empty with trackers :=
          [⟨1, "ohlcv", some 0, some 8636400, 3, "success", none⟩,
           ⟨1, "news", some 8639900, none, 0, "success", none⟩,
           ⟨1, "financials", some 8553600, none, 0, "success", none⟩,
           ⟨1, "earnings", some 8467200, none, 0, "success", none⟩] },
        0, false⟩ ∧
    Smart.smart_sync_news
        { DB.empty with trackers :=
            [⟨1, "ohlcv", some 0, some 8636400, 3, "success", none⟩,
             ⟨1, "news", some 8639900, none, 0, "success", none⟩,
             ⟨1, "financials", some 8553600, none, 0, "success", none⟩,
             ⟨1, "earnings", some 8467200, none, 0, "success", none⟩] }
        8640000 1 none [] =
      ⟨{ DB.empty with trackers :=
          [⟨1, "ohlcv", some 0, some 8636400, 3, "success", none⟩,
           ⟨1, "news", some 8639900, none, 0, "success", none⟩,
           ⟨1, "financials", some 8553600, none, 0, "success", none⟩,
           ⟨1, "earnings", some 8467200, none, 0, "success", none⟩] },
        0, false⟩ ∧
    Smart.smart_sync_financials
        { DB.empty with trackers :=
            [⟨1, "ohlcv", some 0, some 8636400, 3, "success", none⟩,
             ⟨1, "news", some 8639900, none, 0, "success", none⟩,
             ⟨1, "financials", some 8553600, none, 0, "success", none⟩,
             ⟨1, "earnings", some 8467200, none, 0, "success", none⟩] }
        8640000 1 none none =
      ⟨{ DB.empty with trackers :=
          [⟨1, "ohlcv", some 0, some 8636400, 3, "success", none⟩,
           ⟨1, "news", some 8639900, none, 0, "success", none⟩,
           ⟨1, "financials", some 8553600, none, 0, "success", none⟩,
           ⟨1, "earnings", some 8467200, none, 0, "success", none⟩] },
        0, false⟩ ∧
    Smart.smart_sync_earnings
        { DB.empty with trackers :=
            [⟨1, "ohlcv", some 0, some 8636400, 3, "success", none⟩,
             ⟨1, "news", some 8639900, none, 0, "success", none⟩,
             ⟨1, "financials", some 8553600, none, 0, "success", none⟩,
             ⟨1, "earnings", some 8467200, none, 0, "success", none⟩] }
        8640000 1 none =
      ⟨{ DB.empty with trackers :=
          [⟨1, "ohlcv", some 0, some 8636400, 3, "success", none⟩,
           ⟨1, "news", some 8639900, none, 0, "success", none⟩,
           ⟨1, "financials", some 8553600, none, 0, "success", none⟩,
           ⟨1, "earnings", some 8467200, none, 0, "success", none⟩] },
        0, false⟩ :=
  ⟨(staleness_gates _ 8640000 1).1 _ 8636400 none [] rfl rfl (by decide),
   (staleness_gates _ 8640000 1).2.1 _ 8639900 none [] rfl rfl (by decide),
   (staleness_gates _ 8640000 1).2.2.1 _ 8553600 none none rfl rfl
     (by decide),
   (staleness_gates _ 8640000 1).2.2.2 _ 8467200 none rfl rfl (by decide)⟩

/-! ## Claim about the Bulk Upserter (C2) -/

/-- A successful `mapM` over `Option` preserves length. -/
theorem mapM_option_length {α β : Type} (f : α → Option β) :
    ∀ (l : List α) (b : List β), l.mapM f = some b → b.length = l.length := by
  intro l
  induction l with
  | nil =>
    intro b hb
    simp only [List.mapM_nil, pure, Option.some.injEq] at hb
    subst hb
    rfl
  | cons x xs ih =>
    intro b hb
    rw [List.mapM_cons] at hb
    cases hfx : f x with
    | none => rw [hfx] at hb; simp at hb
    | some y =>
      rw [hfx] at hb
      cases hxs : xs.mapM f with
      | none => rw [hxs] at hb; simp at hb
      | some ys =>
        rw [hxs] at hb
        simp at hb
        rw [← hb]
        simp [ih ys hxs]

/-- On a non-empty batch the upsert inserts every successfully converted
candidate row: the `isin` dedup mask of `save_ohlcv_data` never matches
(`dateInDatetimeSet`), so the filter removes nothing. -/
theorem save_ohlcv_inserts_all (db : DB) (sid : ℕ) (data : List YRow)
    (bulk : List PriceRow) (hne : data.isEmpty = false)
    (hconv : data.mapM (Daily.rowToPrice sid) = some bulk) :
    Daily.save_ohlcv_data db sid data false =
      ({ db with prices := db.prices ++ bulk }, bulk.length) := by
  unfold Daily.save_ohlcv_data
  simp only [Daily.dateInDatetimeSet, Bool.not_false, List.filter_true, hne,
    Bool.false_eq_true, if_false, hconv]

/-- C2 amended: the OHLCV bulk path never updates existing rows — it is
insert-only and leaves the tracker untouched — but its dedup is a no-op:
the `isin` mask compares `date` keys against the `datetime` values read back
from the `DateTime` column, which never compare equal, so **every**
candidate row is inserted regardless of whether its key already exists (a
5-new + 5-existing batch yields 10 insertions, duplicating the 5 existing
keys); separately, the quarterly-results incremental path updates existing
rows in place. -/
theorem bulk_upsert_no_dedup (db : DB) (sid : ℕ) (data : List YRow)
    (bulk : List PriceRow)
    (hconv : data.mapM (Daily.rowToPrice sid) = some bulk) :
    (Daily.save_ohlcv_data db sid data false).2 = data.length ∧
    (Daily.save_ohlcv_data db sid data false).1.prices = db.prices ++ bulk ∧
    (Daily.save_ohlcv_data db sid data false).1.trackers = db.trackers := by
  have hlen : bulk.length = data.length := mapM_option_length _ _ _ hconv
  cases hdata : data.isEmpty with
  | true =>
    have hd : data = [] := List.isEmpty_iff.mp hdata
    subst hd
    simp only [List.mapM_nil, pure, Option.some.injEq] at hconv
    unfold Daily.save_ohlcv_data
    simp [← hconv]
  | false =>
    rw [save_ohlcv_inserts_all db sid data bulk hdata hconv]
    exact ⟨hlen, rfl, rfl⟩

/-- Store for the C2 witness: dates 1–5 already present for stock 1. -/
def upsertW_db : DB :=
  { DB.empty with prices :=
      [⟨1, 1, 10, 11, 9, 10, none, none⟩, ⟨1, 2, 10, 11, 9, 10, none, none⟩,
       ⟨1, 3, 10, 11, 9, 10, none, none⟩, ⟨1, 4, 10, 11, 9, 10, none, none⟩,
       ⟨1, 5, 10, 11, 9, 10, none, none⟩] }

/-- Candidate batch for the C2 witness: 5 existing keys (1–5) and 5 new
keys (6–10). -/
def upsertW_data : List YRow :=
  [⟨1, some 10, some 11, some 9, some 10, none⟩,
   ⟨2, some 10, some 11, some 9, some 10, none⟩,
   ⟨3, some 10, some 11, some 9, some 10, none⟩,
   ⟨4, some 10, some 11, some 9, some 10, none⟩,
   ⟨5, some 10, some 11, some 9, some 10, none⟩,
   ⟨6, some 10, some 11, some 9, some 10, none⟩,
   ⟨7, some 10, some 11, some 9, some 10, none⟩,
   ⟨8, some 10, some 11, some 9, some 10, none⟩,
   ⟨9, some 10, some 11, some 9, some 10, none⟩,
   ⟨10, some 10, some 11, some 9, some 10, none⟩]

/-- All ten candidate rows of the C2 batch, converted — including the five
whose keys already exist. -/
def upsertW_bulk10 : List PriceRow :=
  [⟨1, 1, 10, 11, 9, 10, none, none⟩, ⟨1, 2, 10, 11, 9, 10, none, none⟩,
   ⟨1, 3, 10, 11, 9, 10, none, none⟩, ⟨1, 4, 10, 11, 9, 10, none, none⟩,
   ⟨1, 5, 10, 11, 9, 10, none, none⟩, ⟨1, 6, 10, 11, 9, 10, none, none⟩,
   ⟨1, 7, 10, 11, 9, 10, none, none⟩, ⟨1, 8, 10, 11, 9, 10, none, none⟩,
   ⟨1, 9, 10, 11, 9, 10, none, none⟩, ⟨1, 10, 10, 11, 9, 10, none, none⟩]

/-- C2 witness: feeding the upserter 5 new rows and 5 rows whose keys exist
inserts all 10 rows while mutating no existing row and no tracker row. -/
theorem bulk_upsert_no_dedup_witness :
    (Daily.save_ohlcv_data upsertW_db 1 upsertW_data false).2 = 10 ∧
    (Daily.save_ohlcv_data upsertW_db 1 upsertW_data false).1.prices =
      upsertW_db.prices ++ upsertW_bulk10 ∧
    (Daily.save_ohlcv_data upsertW_db 1 upsertW_data false).1.trackers =
      upsertW_db.trackers := by
  obtain ⟨h1, h2, h3⟩ :=
    bulk_upsert_no_dedup upsertW_db 1 upsertW_data upsertW_bulk10 rfl
  refine ⟨?_, h2, h3⟩
  rw [h1]
  rfl

/-- Store for the C2 counterexample: one quarterly-results row for
`(stock 1, "Q1 2024", 2024)` with revenue 10. -/
def quarterlyCe_db : DB :=
  { DB.empty with quarterly_results :=
      [⟨1, "Q1 2024", 2024, 1, some 10, some 2, none, none, none, none,
        none, true, ⟨2024, 2, 1⟩⟩] }

/-- Fetched quarterly column for the C2 counterexample: the same quarter
with revenue 50. -/
def quarterlyCe_cols : List (QDate × Smart.Metrics) :=
  [(⟨2024, 2, 1⟩, [("Total Revenue", some 50), ("Net Income", some 5)])]

/-- C2 counterexample: the claim fails twice over.  (a) A batch of 5 new
rows and 5 rows whose keys already exist results in 10 insertions, not 5 —
the broken `isin` dedup inserts every row, growing the store from 5 to 15
rows with duplicated keys.  (b) The quarterly-results incremental path
updates an existing row in place: after the sync the stored row's revenue is
the freshly fetched 50, not the original 10. -/
theorem upsert_no_dedup_ce :
    (Daily.save_ohlcv_data upsertW_db 1 upsertW_data false).2 = 10 ∧
    (Daily.save_ohlcv_data upsertW_db 1
      upsertW_data false).1.prices.length = 15 ∧
    ((Smart.saveQuarterlyData quarterlyCe_db 1
        quarterlyCe_cols).1.quarterly_results.map fun q => q.revenue) =
      [some 50] ∧
    (quarterlyCe_db.quarterly_results.map fun q => q.revenue) =
      [some 10] := by
  refine ⟨rfl, rfl, ?_, rfl⟩
  rfl

/-! ## Claims about the Refresh Controller and run behaviour (C3, C4,
C10) -/

/-- The per-stock loop adds every stock to exactly one of the two
counters, for any starting accumulator. -/
theorem sync_all_fold_counts (now : ℤ)
    (oracle : ℕ → Option (List YRow) × Option (List YRow)) (t : ℚ)
    (vo ir : Bool) (stocks : List ℕ) :
    ∀ acc : DB × ℕ × ℕ,
      ((stocks.foldl (fun acc sid =>
          let out := Daily.sync_stock_ohlcv acc.1 sid now (oracle sid).1
            (oracle sid).2 t vo ir
          (out.db, if out.success then acc.2.1 + 1 else acc.2.1,
            if out.success then acc.2.2 else acc.2.2 + 1)) acc).2.1 +
        (stocks.foldl (fun acc sid =>
          let out := Daily.sync_stock_ohlcv acc.1 sid now (oracle sid).1
            (oracle sid).2 t vo ir
          (out.db, if out.success then acc.2.1 + 1 else acc.2.1,
            if out.success then acc.2.2 else acc.2.2 + 1)) acc).2.2) =
      acc.2.1 + acc.2.2 + stocks.length := by
  induction stocks with
  | nil => intro acc; simp
  | cons s ss ih =>
    intro acc
    rw [List.foldl_cons, ih]
    by_cases h : (Daily.sync_stock_ohlcv acc.1 s now (oracle s).1
        (oracle s).2 t vo ir).success = true
    · simp only [h, if_true, if_pos]
      simp
      omega
    · simp only [h, if_neg, if_false]
      simp [h]
      omega

/-- Every stock of a run ends in exactly one of the success/failed
counters: a failed entity never aborts the loop. -/
theorem sync_all_stocks_counts (db : DB) (stocks : List ℕ) (now : ℤ)
    (oracle : ℕ → Option (List YRow) × Option (List YRow)) (t : ℚ)
    (vo ir : Bool) :
    (Daily.sync_all_stocks db stocks now oracle t vo ir).2.1 +
      (Daily.sync_all_stocks db stocks now oracle t vo ir).2.2 =
      stocks.length := by
  unfold Daily.sync_all_stocks
  simpa using sync_all_fold_counts now oracle t vo ir stocks (db, 0, 0)

/-- C3 amended: when validation fails and the full-window re-fetch after the
delete returns nothing, the entity is left with zero locally stored rows and
the per-entity result is failure ("Failed to fetch complete data"), and the
run continues with the remaining entities (every stock lands in exactly one
of the success/failed counters) — but no checkpoint write happens on this
path: the tracker table is returned unchanged, so the checkpoint is *not*
set to `failed` and no error is recorded on it. -/
theorem refresh_failure_no_tracker (db : DB) (sid : ℕ) (now : ℤ)
    (rows : List YRow) (lastr : YRow) (t : ℚ) (latest : DbOHLCV)
    (hlatest : Daily.get_latest_ohlcv_data db sid = some latest)
    (hdue : latest.date + 1 < now)
    (hlast : rows.getLast? = some lastr)
    (hval : Daily.validate_ohlcv_data t (some latest) lastr = false) :
    Daily.sync_stock_ohlcv db sid now (some rows) none t false false =
      ⟨{ db with prices := db.prices.filter fun r => !(r.stock_id == sid) },
        false, "Failed to fetch complete data"⟩ ∧
    (db.prices.filter fun r => !(r.stock_id == sid)).filter
      (fun r => r.stock_id == sid) = [] ∧
    (∀ (db₀ : DB) (stocks : List ℕ)
      (oracle : ℕ → Option (List YRow) × Option (List YRow)) (vo ir : Bool),
      (Daily.sync_all_stocks db₀ stocks now oracle t vo ir).2.1 +
        (Daily.sync_all_stocks db₀ stocks now oracle t vo ir).2.2 =
        stocks.length) := by
  refine ⟨?_, ?_, ?_⟩
  · have hne : rows ≠ [] := by
      intro h; subst h; simp at hlast
    have hemp : rows.isEmpty = false := by
      cases rows with
      | nil => exact absurd rfl hne
      | cons a l => rfl
    simp [Daily.sync_stock_ohlcv, hlatest, hemp, hlast, hval,
      Daily.delete_all_ohlcv_data, not_le.mpr hdue]
  · rw [List.filter_filter]
    apply List.filter_eq_nil_iff.mpr
    intro r _
    cases h : r.stock_id == sid <;> simp [h]
  · intro db₀ stocks oracle vo ir
    exact sync_all_stocks_counts db₀ stocks now oracle t vo ir

/-- Store for the C3 counterexample/witness: one price row and a healthy
checkpoint for stock 1. -/
def refreshCe_db : DB :=
  ⟨[⟨1, 10, 100, 100, 100, 100, none, none⟩],
   [⟨1, "ohlcv", some 9, some 10, 3, "success", none⟩], [], [], [], []⟩

/-- C3 counterexample: validation fails (remote close 200 vs local 100), the
full re-fetch returns `None` — the entity ends with zero price rows and a
failed result, yet the checkpoint row is untouched: its status is still
`"success"`, not `"failed"`, and no error is surfaced on it.  The claim
predicts the checkpoint is set to `failed` with the error recorded. -/
theorem refresh_failure_ce :
    Daily.sync_stock_ohlcv refreshCe_db 1 20
        (some [⟨11, some 100, some 100, some 100, some 200, none⟩]) none
        (1/100) false false =
      ⟨⟨[], [⟨1, "ohlcv", some 9, some 10, 3, "success", none⟩], [], [], [],
        []⟩, false, "Failed to fetch complete data"⟩ ∧
    refreshCe_db.trackers.map (fun t => t.sync_status) = ["success"] := by
  constructor
  · have hval : Daily.validate_ohlcv_data (1/100)
        (some ⟨10, some 100, some 100, some 100, some 100, none⟩)
        ⟨11, some 100, some 100, some 100, some 200, none⟩ = false := by
      norm_num [Daily.validate_ohlcv_data, Daily.checkPriceFields,
        Daily.checkPriceField, Daily.checkVolume]
    have hlatest : Daily.get_latest_ohlcv_data refreshCe_db 1 =
        some ⟨10, some 100, some 100, some 100, some 100, none⟩ := rfl
    simp only [Daily.sync_stock_ohlcv, hlatest, hval,
      Daily.delete_all_ohlcv_data]
    norm_num [refreshCe_db]
    intro h
    rw [one_div] at hval
    simp [hval] at h
  · rfl

/-- C3 witness: the amended statement applied at the concrete store. -/
theorem refresh_failure_witness :
    Daily.sync_stock_ohlcv refreshCe_db 1 20
        (some [⟨11, some 100, some 100, some 100, some 200, none⟩]) none
        (1/100) false false =
      ⟨⟨refreshCe_db.prices.filter (fun r => !(r.stock_id == 1)),
        [⟨1, "ohlcv", some 9, some 10, 3, "success", none⟩], [], [], [],
        []⟩, false, "Failed to fetch complete data"⟩ :=
  (refresh_failure_no_tracker refreshCe_db 1 20
    [⟨11, some 100, some 100, some 100, some 200, none⟩]
    ⟨11, some 100, some 100, some 100, some 200, none⟩ (1/100)
    ⟨10, some 100, some 100, some 100, some 100, none⟩
    rfl (by norm_num) rfl
    (by norm_num [Daily.validate_ohlcv_data, Daily.checkPriceFields,
      Daily.checkPriceField, Daily.checkVolume])).1

/-- C4 amended: the second run never produces a checkpoint update recording
`records_written = 0`.  (i) When the provider returns no data for the
incremental window, the run reports success "No new data available" and
performs no checkpoint update at all — the store, tracker included, is
returned unchanged.  (ii) When the provider re-serves rows whose keys are
already stored, the broken dedup re-inserts all of them as duplicates, and
the checkpoint **is** updated — with their full count, not 0 — reporting
"Synced n records": the incremental path is not idempotent. -/
theorem second_run_not_idempotent (db : DB) (sid : ℕ) (now : ℤ)
    (ff : Option (List YRow)) (t : ℚ) (latest : DbOHLCV)
    (hlatest : Daily.get_latest_ohlcv_data db sid = some latest)
    (hdue : latest.date + 1 < now) :
    (∀ ir : Bool, Daily.sync_stock_ohlcv db sid now none ff t false ir =
      ⟨db, true, "No new data available"⟩) ∧
    (∀ (rows : List YRow) (lastr : YRow) (bulk : List PriceRow),
      rows.getLast? = some lastr →
      Daily.validate_ohlcv_data t (some latest) lastr = true →
      rows.mapM (Daily.rowToPrice sid) = some bulk →
      (∀ r ∈ rows, Daily.hasPrice db sid r.date = true) →
      Daily.sync_stock_ohlcv db sid now (some rows) ff t false false =
        ⟨Daily.update_sync_tracker { db with prices := db.prices ++ bulk }
            now sid (some lastr.date) (bulk.length : ℤ) "success" none,
          true, "Synced " ++ toString bulk.length ++ " records"⟩) := by
  constructor
  · intro ir
    simp [Daily.sync_stock_ohlcv, hlatest, not_le.mpr hdue]
  · intro rows lastr bulk hlast hval hconv _
    have hne : rows ≠ [] := by intro h; subst h; simp at hlast
    have hemp : rows.isEmpty = false := by
      cases rows with
      | nil => exact absurd rfl hne
      | cons a l => rfl
    have hpos : 0 < bulk.length := by
      rw [mapM_option_length _ _ _ hconv]
      cases rows with
      | nil => exact absurd rfl hne
      | cons a l => simp
    simp [Daily.sync_stock_ohlcv, hlatest, hemp, hlast, hval,
      not_le.mpr hdue, Daily.saveAndTrack,
      save_ohlcv_inserts_all db sid rows bulk hemp hconv, hpos]

/-- Provider rows for the first C4 run: five fresh dates. -/
def idemCe_rows : List YRow :=
  [⟨1, some 10, some 11, some 9, some 10, none⟩,
   ⟨2, some 10, some 11, some 9, some 10, none⟩,
   ⟨3, some 10, some 11, some 9, some 10, none⟩,
   ⟨4, some 10, some 11, some 9, some 10, none⟩,
   ⟨5, some 10, some 11, some 9, some 10, none⟩]

/-- Store state after the first C4 run: five rows and a checkpoint with
`records_count = 5`. -/
def idemCe_db1 : DB :=
  ⟨[⟨1, 1, 10, 11, 9, 10, none, none⟩, ⟨1, 2, 10, 11, 9, 10, none, none⟩,
    ⟨1, 3, 10, 11, 9, 10, none, none⟩, ⟨1, 4, 10, 11, 9, 10, none, none⟩,
    ⟨1, 5, 10, 11, 9, 10, none, none⟩],
   [⟨1, "ohlcv", some 20, some 5, 5, "success", none⟩], [], [], [], []⟩

/-- Store after the second C4 run: a duplicate date-5 row has been appended
and the checkpoint now records 1. -/
def idemCe_db2 : DB :=
  ⟨[⟨1, 1, 10, 11, 9, 10, none, none⟩, ⟨1, 2, 10, 11, 9, 10, none, none⟩,
    ⟨1, 3, 10, 11, 9, 10, none, none⟩, ⟨1, 4, 10, 11, 9, 10, none, none⟩,
    ⟨1, 5, 10, 11, 9, 10, none, none⟩, ⟨1, 5, 10, 11, 9, 10, none, none⟩],
   [⟨1, "ohlcv", some 20, some 5, 1, "success", none⟩], [], [], [], []⟩

/-- C4 counterexample: a first run inserts 5 rows and records
`records_count = 5`; a second run in which the provider merely re-serves the
already-stored date-5 row passes validation, re-inserts that row as a
duplicate (the store grows by one) and updates the checkpoint to
`records_count = 1` with "Synced 1 records".  The claim predicts zero
additional rows and a checkpoint update recording `records_written = 0`. -/
theorem idempotence_ce :
    Daily.sync_stock_ohlcv DB.empty 1 20 (some idemCe_rows) none (1/100)
        false false = ⟨idemCe_db1, true, "Synced 5 records"⟩ ∧
    Daily.sync_stock_ohlcv idemCe_db1 1 20
        (some [⟨5, some 10, some 11, some 9, some 10, none⟩]) none (1/100)
        false false = ⟨idemCe_db2, true, "Synced 1 records"⟩ ∧
    idemCe_db2.prices.length = idemCe_db1.prices.length + 1 ∧
    idemCe_db2.trackers.map (fun t => t.records_count) = [1] := by
  refine ⟨rfl, ?_, rfl, rfl⟩
  have hval : Daily.validate_ohlcv_data (1/100)
      (some ⟨5, some 10, some 11, some 9, some 10, none⟩)
      ⟨5, some 10, some 11, some 9, some 10, none⟩ = true := by
    norm_num [Daily.validate_ohlcv_data, Daily.checkPriceFields,
      Daily.checkPriceField, Daily.checkVolume]
  have hlatest : Daily.get_latest_ohlcv_data idemCe_db1 1 =
      some ⟨5, some 10, some 11, some 9, some 10, none⟩ := rfl
  have hsave := save_ohlcv_inserts_all idemCe_db1 1
    [⟨5, some 10, some 11, some 9, some 10, none⟩]
    [⟨1, 5, 10, 11, 9, 10, none, none⟩] rfl rfl
  simp only [Daily.sync_stock_ohlcv, hlatest, hval, Daily.saveAndTrack,
    hsave]
  norm_num
  have hnf : ¬ (Daily.validate_ohlcv_data (1/100)
      (some ⟨5, some 10, some 11, some 9, some 10, none⟩)
      ⟨5, some 10, some 11, some 9, some 10, none⟩ = false) := by
    rw [hval]
    simp
  rw [if_neg hnf]
  rfl

/-- C4 witness: both amended behaviours at the concrete second-run store —
a `None` incremental fetch leaves everything untouched, and a re-served
already-stored row is re-inserted with the checkpoint updated to count 1. -/
theorem second_run_not_idempotent_witness :
    Daily.sync_stock_ohlcv idemCe_db1 1 20 none none (1/100) false false =
      ⟨idemCe_db1, true, "No new data available"⟩ ∧
    Daily.sync_stock_ohlcv idemCe_db1 1 20
        (some [⟨5, some 10, some 11, some 9, some 10, none⟩]) none (1/100)
        false false =
      ⟨Daily.update_sync_tracker
          ⟨idemCe_db1.prices ++ [⟨1, 5, 10, 11, 9, 10, none, none⟩],
           idemCe_db1.trackers, [], [], [], []⟩ 20 1 (some 5) 1 "success"
          none,
        true, "Synced 1 records"⟩ := by
  obtain ⟨h1, h2⟩ := second_run_not_idempotent idemCe_db1 1 20 none (1/100)
    ⟨5, some 10, some 11, some 9, some 10, none⟩ rfl (by norm_num)
  exact ⟨h1 false,
    h2 [⟨5, some 10, some 11, some 9, some 10, none⟩]
      ⟨5, some 10, some 11, some 9, some 10, none⟩
      [⟨1, 5, 10, 11, 9, 10, none, none⟩] rfl
      (by norm_num [Daily.validate_ohlcv_data, Daily.checkPriceFields,
        Daily.checkPriceField, Daily.checkVolume]) rfl
      (fun r hr => by rw [List.mem_singleton.mp hr]; rfl)⟩

/-- C10: a storage error raised during the bulk insert makes
`save_ohlcv_data` roll back and return 0, and the per-entity sync then
reports success with "No new records" — the store (tracker rows included) is
unchanged, so no `failed` status and no error detail are recorded for the
entity. -/
theorem insert_failure_reported_success (db : DB) (sid : ℕ) (now : ℤ)
    (rows : List YRow) (ff : Option (List YRow)) (t : ℚ)
    (hnone : db.prices.filter (fun r => r.stock_id == sid) = []) :
    Daily.save_ohlcv_data db sid rows true = (db, 0) ∧
    (rows ≠ [] →
      Daily.sync_stock_ohlcv db sid now (some rows) ff t false true =
        ⟨db, true, "No new records"⟩) := by
  have hsave : ∀ (d : DB) (rs : List YRow),
      Daily.save_ohlcv_data d sid rs true = (d, 0) := by
    intro d rs
    unfold Daily.save_ohlcv_data
    simp only [Daily.dateInDatetimeSet, Bool.not_false, List.filter_true]
    cases h1 : rs.isEmpty with
    | true => simp [h1]
    | false =>
      simp only [h1, Bool.false_eq_true, if_false]
      cases h3 : rs.mapM (Daily.rowToPrice sid) with
      | none => simp [h3]
      | some bulk => simp [h3]
  refine ⟨hsave db rows, ?_⟩
  intro hne
  have hemp : rows.isEmpty = false := by
    cases rows with
    | nil => exact absurd rfl hne
    | cons a l => rfl
  have hlatest : Daily.get_latest_ohlcv_data db sid = none := by
    unfold Daily.get_latest_ohlcv_data
    rw [hnone]
    rfl
  simp [Daily.sync_stock_ohlcv, hlatest, hemp, Daily.saveAndTrack, hsave]

/-- C10 witness: a first-sync insert that raises — save returns 0 with the
store rolled back, and the sync reports success "No new records". -/
theorem insert_failure_reported_success_witness :
    Daily.save_ohlcv_data DB.empty 1
      [⟨1, some 10, some 11, some 9, some 10, none⟩] true = (DB.empty, 0) ∧
    Daily.sync_stock_ohlcv DB.empty 1 20
        (some [⟨1, some 10, some 11, some 9, some 10, none⟩]) none (1/100)
        false true = ⟨DB.empty, true, "No new records"⟩ := by
  obtain ⟨h1, h2⟩ := insert_failure_reported_success DB.empty 1 20
    [⟨1, some 10, some 11, some 9, some 10, none⟩] none (1/100) rfl
  exact ⟨h1, h2 (by simp)⟩

end StockSync
